import Mathlib

/-!
Verification development for the coloringpage-fun repository.

The embedding models the three source files:
- src/services/geminiService.ts : the credential cache, getApiKey,
  initializeApp and generateVideoFromImage (modelled as a deterministic
  run over a scripted remote environment, producing an event trace);
- src/api/get-key.js : the GET /api/get-key handler, plus the App
  component error branch of handleGenerateVideo;
- src/types.ts : the GenerateVideoResult record type.

JavaScript truthiness on strings (empty string is falsy) and the
module-level mutable state (apiKey cache, isInitialized flag) are made
explicit.  Remote behaviour (the create call, each poll response, the
download fetch) is an explicit environment argument, so every run of the
model is a pure function of its inputs.
-/

deriving instance DecidableEq for Except

/-- JavaScript truthiness of a possibly-absent string: undefined and the
empty string are falsy. -/
def optTruthy : Option String → Bool
  | none => false
  | some s => !(s == "")

/-- Whether the first character list is a prefix of the second. -/
def listIsPref : List Char → List Char → Bool
  | [], _ => true
  | _ :: _, [] => false
  | a :: as, b :: bs => a == b && listIsPref as bs

/-- Whether the first character list occurs inside the second. -/
def listOccurs (p : List Char) : List Char → Bool
  | [] => p.isEmpty
  | b :: bs => listIsPref p (b :: bs) || listOccurs p bs

/-- JavaScript s.includes(pat): true when pat occurs inside s. -/
def strContains (s pat : String) : Bool :=
  listOccurs pat.toList s.toList

/-- The mutable module state of geminiService.ts: the cached production
key (line 8) and the isInitialized flag (line 9). -/
structure ServiceState where
  apiKey : Option String
  isInitialized : Bool
deriving DecidableEq

/-- The outcome of one fetch of /api/get-key as the client sees it:
response.ok, and the apiKey field of the parsed JSON body (none when the
field is absent). -/
structure KeyFetchEnv where
  ok : Bool
  keyField : Option String
deriving DecidableEq

/-- getApiKey (geminiService.ts lines 24-52).  Arguments: whether
window.aistudio is truthy, the current process.env.API_KEY, the scripted
outcome of a fetch of /api/get-key, and the module state.  Returns the
thrown-or-returned key, the new module state, and how many network
fetches were issued (0 or 1). -/
def getApiKey (aiStudio : Bool) (envKey : Option String) (fenv : KeyFetchEnv)
    (st : ServiceState) : Except String String × ServiceState × Nat :=
  if aiStudio then
    if optTruthy envKey then (.ok (envKey.getD ""), st, 0)
    else (.error "DEV_KEY_MISSING", st, 0)
  else if optTruthy st.apiKey then
    (.ok (st.apiKey.getD ""), st, 0)
  else if !fenv.ok then
    (.error "Could not connect to the server to get the API key. Please check the server logs.", st, 1)
  else if !(optTruthy fenv.keyField) then
    (.error "Server responded but did not provide an API key.", st, 1)
  else
    (.ok (fenv.keyField.getD ""), { st with apiKey := fenv.keyField }, 1)

/-- initializeApp (geminiService.ts lines 59-88).  hasSelected models
window.aistudio.hasSelectedApiKey().  Returns the returned-or-thrown
value, the new module state, and the number of network fetches.  (The
inner check of window.aistudio at line 62 is dead when isAiStudio() has
already returned true, since both test truthiness of the same object, so
it is not modelled.) -/
def initializeApp (aiStudio : Bool) (hasSelected : Bool) (envKey : Option String)
    (fenv : KeyFetchEnv) (st : ServiceState) : Except String Bool × ServiceState × Nat :=
  if aiStudio && !hasSelected then
    (.ok false, { st with isInitialized := false }, 0)
  else
    match getApiKey aiStudio envKey fenv st with
    | (.ok _, st2, n) => (.ok true, { st2 with isInitialized := true }, n)
    | (.error e, st2, n) =>
      if e == "DEV_KEY_MISSING" then (.ok false, { st2 with isInitialized := false }, n)
      else (.error e, st2, n)

/-- The remote video operation object, as the client consumes it: an
opaque handle, the done flag (absent modelled as false), and the nested
response.generatedVideos[0].video.uri field (none when any step of the
optional chain is absent). -/
structure Operation where
  name : String
  done : Bool
  uri : Option String
deriving DecidableEq

/-- Observable actions of one generateVideoFromImage call, in program
order.  startTimer and stopTimer are the setInterval / clearInterval
calls for the cosmetic message-timer; its concurrently running callback
is not part of the sequential trace. -/
inductive Event where
  | setMsg (m : String)
  | startTimer (periodMs : Nat)
  | wait (ms : Nat)
  | pollReq (op : Operation)
  | stopTimer
  | download (uri : String) (key : String)
deriving DecidableEq

/-- The while-loop of geminiService.ts lines 144-148.  polls scripts the
outcome of each successive getVideosOperation call; running out of
script is reported as none (the loop would still be running).  Each
iteration waits 10000 ms and then submits the current operation object. -/
def pollLoop (polls : List (Except String Operation)) (op : Operation) :
    List Event × Option (Except String Operation) :=
  if op.done then ([], some (.ok op))
  else
    match polls with
    | [] => ([], none)
    | .error e :: _ => ([Event.wait 10000, Event.pollReq op], some (.error e))
    | .ok op2 :: rest =>
      let t := pollLoop rest op2
      (Event.wait 10000 :: Event.pollReq op :: t.1, t.2)

/-- The operations submitted by the poll requests of a trace, in order. -/
def polledOps : List Event → List Operation
  | [] => []
  | Event.pollReq o :: rest => o :: polledOps rest
  | _ :: rest => polledOps rest

/-- The catch handler of generateVideoFromImage (geminiService.ts lines
169-177): in production, an error whose (truthy) message includes
"permission" invalidates the cached key and the initialized flag; the
error is always rethrown. -/
def catchGen (aiStudio : Bool) (e : String) (st : ServiceState) : ServiceState :=
  if !aiStudio && !(e == "") && strContains e "permission" then
    { st with apiKey := none, isInitialized := false }
  else st

/-- URL.createObjectURL on the downloaded blob, modelled as a marked
string of the blob bytes. -/
def createObjectURL (blobBytes : String) : String := "blob:" ++ blobBytes

/-- The JavaScript values relevant to the resolved result of
generateVideoFromImage: a plain string, a record with url and blob
fields, or undefined. -/
inductive JsValue where
  | vStr (s : String)
  | vObj (url : String) (blob : String)
  | vUndefined
deriving DecidableEq

/-- Property access v.url / v.blob: defined on the record shape, and
undefined on a plain string (strings have no such properties). -/
def getField : JsValue → String → JsValue
  | .vObj u _, "url" => .vStr u
  | .vObj _ b, "blob" => .vStr b
  | _, _ => .vUndefined

/-- JavaScript truthiness of a JsValue (undefined and the empty string
are falsy). -/
def jsTruthy : JsValue → Bool
  | .vStr s => !(s == "")
  | .vObj _ _ => true
  | .vUndefined => false

/-- The GenerateVideoResult interface of src/types.ts lines 11-14 (the
Blob modelled as its bytes). -/
structure GenerateVideoResult where
  url : String
  blob : String
deriving DecidableEq

/-- The JsValue a GenerateVideoResult record would be. -/
def recordValue (r : GenerateVideoResult) : JsValue := .vObj r.url r.blob

/-- The scripted remote environment of one generateVideoFromImage call:
the current process.env.API_KEY and /api/get-key outcome (consumed by the
inner getApiKey call), the outcome of the generateVideos create call, the
outcomes of the successive polls, and the outcome of the result-download
fetch (statusText and body text; the body doubles as the blob bytes on
success). -/
structure GenEnv where
  envKey : Option String
  fetchKey : KeyFetchEnv
  createResult : Except String Operation
  pollResults : List (Except String Operation)
  downloadOk : Bool
  downloadStatusText : String
  downloadBody : String
deriving DecidableEq

/-- The outcome of one generateVideoFromImage call: the event trace, the
settlement (none when the scripted polls ran out with the loop still
running), the new module state, and the number of key fetches issued. -/
structure GenResult where
  events : List Event
  result : Option (Except String JsValue)
  state : ServiceState
  fetches : Nat
deriving DecidableEq

/-- generateVideoFromImage (geminiService.ts lines 103-178) as a
deterministic run over the scripted environment.  Mirrors the source
order: initialized guard, getApiKey (outside the try block, so its
errors bypass the catch handler), create call, setInterval, poll loop,
clearInterval, download-link check (JS truthiness), download fetch,
object-URL creation; every thrown error inside the try block passes
through the catch handler before propagating. -/
def generateRun (aiStudio : Bool) (env : GenEnv) (st : ServiceState) : GenResult :=
  if !st.isInitialized then
    ⟨[], some (.error "Application is not initialized. Please select an API key if prompted."), st, 0⟩
  else
    match getApiKey aiStudio env.envKey env.fetchKey st with
    | (.error e, st2, n) => ⟨[], some (.error e), st2, n⟩
    | (.ok key, st2, n) =>
      let ev0 := [Event.setMsg "Initializing animation sequence..."]
      match env.createResult with
      | .error e => ⟨ev0, some (.error e), catchGen aiStudio e st2, n⟩
      | .ok op =>
        let ev1 := ev0 ++ [Event.startTimer 5000,
          Event.setMsg "The animation portal is open. Generating video..."]
        match (pollLoop env.pollResults op).2 with
        | none => ⟨ev1 ++ (pollLoop env.pollResults op).1, none, st2, n⟩
        | some (.error e) =>
          ⟨ev1 ++ (pollLoop env.pollResults op).1, some (.error e), catchGen aiStudio e st2, n⟩
        | some (.ok opF) =>
          let ev2 := ev1 ++ (pollLoop env.pollResults op).1 ++
            [Event.stopTimer, Event.setMsg "Finalizing your video..."]
          if optTruthy opF.uri then
            let ev3 := ev2 ++ [Event.download (opF.uri.getD "") key]
            if env.downloadOk then
              ⟨ev3, some (.ok (.vStr (createObjectURL env.downloadBody))), st2, n⟩
            else
              ⟨ev3, some (.error ("Failed to download the generated video. Status: " ++
                env.downloadStatusText ++ ". Details: " ++ env.downloadBody)),
                catchGen aiStudio ("Failed to download the generated video. Status: " ++
                  env.downloadStatusText ++ ". Details: " ++ env.downloadBody) st2, n⟩
          else
            ⟨ev2, some (.error "Video generation failed to produce a download link."),
              catchGen aiStudio "Video generation failed to produce a download link." st2, n⟩

/-- The JSON body served by the key endpoint: either an apiKey field or
an error field. -/
inductive KeyBody where
  | keyBody (apiKey : String)
  | errBody (error : String)
deriving DecidableEq

/-- An HTTP response of the key endpoint: status code and JSON body. -/
structure HttpResponse where
  status : Nat
  body : KeyBody
deriving DecidableEq

/-- The GET /api/get-key handler (src/api/get-key.js lines 2-13): serves
the GEMINI_API_KEY environment variable when truthy (res.json defaults
to status 200), and a 500 error body otherwise. -/
def getKeyHandler (envKey : Option String) : HttpResponse :=
  if optTruthy envKey then ⟨200, .keyBody (envKey.getD "")⟩
  else ⟨500, .errBody "GEMINI_API_KEY is not configured on the server."⟩

/-- The catch branch of handleGenerateVideo in the App component: given
the message of the thrown error, returns the error text shown to the
user and whether the app state is reset to key_needed. -/
def handleGenError (msg : String) : String × Bool :=
  if !(msg == "") && strContains msg "Requested entity was not found." then
    ("The selected API key appears to be invalid. Please select another key.", true)
  else
    (if msg == "" then "An unknown error occurred." else msg, false)

/-- One session-level call into the service module. -/
inductive SessionOp where
  | opGetKey (envKey : Option String) (fenv : KeyFetchEnv)
  | opInit (hasSelected : Bool) (envKey : Option String) (fenv : KeyFetchEnv)
  | opGenerate (env : GenEnv)
deriving DecidableEq

/-- Effect of one session operation on the module state, together with
the number of /api/get-key fetches it issued. -/
def sessionStep (aiStudio : Bool) (st : ServiceState) : SessionOp → ServiceState × Nat
  | .opGetKey ek fe =>
    let r := getApiKey aiStudio ek fe st
    (r.2.1, r.2.2)
  | .opInit hs ek fe =>
    let r := initializeApp aiStudio hs ek fe st
    (r.2.1, r.2.2)
  | .opGenerate env =>
    let r := generateRun aiStudio env st
    (r.state, r.fetches)

/-- Running a list of session operations, accumulating fetch counts. -/
def sessionRun (aiStudio : Bool) (st : ServiceState) : List SessionOp → ServiceState × Nat
  | [] => (st, 0)
  | o :: rest =>
    let s1 := sessionStep aiStudio st o
    let s2 := sessionRun aiStudio s1.1 rest
    (s2.1, s1.2 + s2.2)

theorem polledOps_nil : polledOps [] = [] := rfl

theorem polledOps_wait (ms : Nat) (l : List Event) :
    polledOps (Event.wait ms :: l) = polledOps l := rfl

theorem polledOps_poll (o : Operation) (l : List Event) :
    polledOps (Event.pollReq o :: l) = o :: polledOps l := rfl

theorem pollLoop_done_eq (polls : List (Except String Operation)) (op : Operation)
    (h : op.done = true) : pollLoop polls op = ([], some (.ok op)) := by
  unfold pollLoop
  simp [h]

theorem pollLoop_nd_nil (op : Operation) (h : op.done = false) :
    pollLoop [] op = ([], none) := by
  unfold pollLoop
  simp [h]

theorem pollLoop_nd_err (rest : List (Except String Operation)) (op : Operation) (e : String)
    (h : op.done = false) :
    pollLoop (.error e :: rest) op =
      ([Event.wait 10000, Event.pollReq op], some (.error e)) := by
  unfold pollLoop
  simp [h]

theorem pollLoop_nd_ok (rest : List (Except String Operation)) (op op2 : Operation)
    (h : op.done = false) :
    pollLoop (.ok op2 :: rest) op =
      (Event.wait 10000 :: Event.pollReq op :: (pollLoop rest op2).1,
        (pollLoop rest op2).2) := by
  conv_lhs => unfold pollLoop
  simp [h]

theorem pollLoop_result_done :
    ∀ (polls : List (Except String Operation)) (op r : Operation),
      (pollLoop polls op).2 = some (.ok r) → r.done = true := by
  intro polls
  induction polls with
  | nil =>
    intro op r h
    by_cases hd : op.done
    · rw [pollLoop_done_eq _ _ hd] at h
      simp at h
      rw [← h]
      exact hd
    · rw [pollLoop_nd_nil _ (Bool.not_eq_true _ ▸ hd)] at h
      simp at h
  | cons p rest ih =>
    intro op r h
    by_cases hd : op.done
    · rw [pollLoop_done_eq _ _ hd] at h
      simp at h
      rw [← h]
      exact hd
    · have hd' : op.done = false := Bool.not_eq_true _ ▸ hd
      cases p with
      | error e =>
        rw [pollLoop_nd_err _ _ _ hd'] at h
        simp at h
      | ok op2 =>
        rw [pollLoop_nd_ok _ _ _ hd'] at h
        exact ih op2 r h

theorem pollLoop_polled_not_done :
    ∀ (polls : List (Except String Operation)) (op : Operation),
      ∀ o ∈ polledOps (pollLoop polls op).1, o.done = false := by
  intro polls
  induction polls with
  | nil =>
    intro op o ho
    by_cases hd : op.done
    · rw [pollLoop_done_eq _ _ hd] at ho
      simp [polledOps_nil] at ho
    · rw [pollLoop_nd_nil _ (Bool.not_eq_true _ ▸ hd)] at ho
      simp [polledOps_nil] at ho
  | cons p rest ih =>
    intro op o ho
    by_cases hd : op.done
    · rw [pollLoop_done_eq _ _ hd] at ho
      simp [polledOps_nil] at ho
    · have hd' : op.done = false := Bool.not_eq_true _ ▸ hd
      cases p with
      | error e =>
        rw [pollLoop_nd_err _ _ _ hd'] at ho
        simp only [polledOps_wait, polledOps_poll, polledOps_nil, List.mem_singleton] at ho
        rw [ho]
        exact hd'
      | ok op2 =>
        rw [pollLoop_nd_ok _ _ _ hd'] at ho
        simp only [polledOps_wait, polledOps_poll, List.mem_cons] at ho
        rcases ho with h1 | h2
        · rw [h1]
          exact hd'
        · exact ih op2 o h2

theorem pollLoop_events_shape :
    ∀ (polls : List (Except String Operation)) (op : Operation),
      (pollLoop polls op).1 =
        (polledOps (pollLoop polls op).1).flatMap
          (fun o => [Event.wait 10000, Event.pollReq o]) := by
  intro polls
  induction polls with
  | nil =>
    intro op
    by_cases hd : op.done
    · rw [pollLoop_done_eq _ _ hd]
      simp [polledOps_nil]
    · rw [pollLoop_nd_nil _ (Bool.not_eq_true _ ▸ hd)]
      simp [polledOps_nil]
  | cons p rest ih =>
    intro op
    by_cases hd : op.done
    · rw [pollLoop_done_eq _ _ hd]
      simp [polledOps_nil]
    · have hd' : op.done = false := Bool.not_eq_true _ ▸ hd
      cases p with
      | error e =>
        rw [pollLoop_nd_err _ _ _ hd']
        simp [polledOps_wait, polledOps_poll, polledOps_nil]
      | ok op2 =>
        rw [pollLoop_nd_ok _ _ _ hd']
        simp only [polledOps_wait, polledOps_poll, List.flatMap_cons]
        rw [← ih op2]
        rfl

theorem pollLoop_no_stop :
    ∀ (polls : List (Except String Operation)) (op : Operation),
      Event.stopTimer ∉ (pollLoop polls op).1 := by
  intro polls
  induction polls with
  | nil =>
    intro op
    by_cases hd : op.done
    · rw [pollLoop_done_eq _ _ hd]
      simp
    · rw [pollLoop_nd_nil _ (Bool.not_eq_true _ ▸ hd)]
      simp
  | cons p rest ih =>
    intro op
    by_cases hd : op.done
    · rw [pollLoop_done_eq _ _ hd]
      simp
    · have hd' : op.done = false := Bool.not_eq_true _ ▸ hd
      cases p with
      | error e =>
        rw [pollLoop_nd_err _ _ _ hd']
        simp
      | ok op2 =>
        rw [pollLoop_nd_ok _ _ _ hd']
        simp only [List.mem_cons, not_or]
        exact ⟨by simp, by simp, ih op2⟩

theorem pollLoop_chain :
    ∀ (polls : List (Except String Operation)) (op : Operation),
      (∀ o, (polledOps (pollLoop polls op).1).head? = some o → o = op) ∧
      (∀ i o, (polledOps (pollLoop polls op).1)[i + 1]? = some o →
        polls[i]? = some (.ok o)) := by
  intro polls
  induction polls with
  | nil =>
    intro op
    by_cases hd : op.done
    · rw [pollLoop_done_eq _ _ hd]
      constructor
      · intro o h
        simp [polledOps_nil] at h
      · intro i o h
        simp [polledOps_nil] at h
    · rw [pollLoop_nd_nil _ (Bool.not_eq_true _ ▸ hd)]
      constructor
      · intro o h
        simp [polledOps_nil] at h
      · intro i o h
        simp [polledOps_nil] at h
  | cons p rest ih =>
    intro op
    by_cases hd : op.done
    · rw [pollLoop_done_eq _ _ hd]
      constructor
      · intro o h
        simp [polledOps_nil] at h
      · intro i o h
        simp [polledOps_nil] at h
    · have hd' : op.done = false := Bool.not_eq_true _ ▸ hd
      cases p with
      | error e =>
        rw [pollLoop_nd_err _ _ _ hd']
        constructor
        · intro o h
          simp only [polledOps_wait, polledOps_poll, polledOps_nil, List.head?_cons,
            Option.some.injEq] at h
          exact h.symm
        · intro i o h
          simp only [polledOps_wait, polledOps_poll, polledOps_nil,
            List.getElem?_cons_succ] at h
          simp at h
      | ok op2 =>
        rw [pollLoop_nd_ok _ _ _ hd']
        constructor
        · intro o h
          simp only [polledOps_wait, polledOps_poll, List.head?_cons,
            Option.some.injEq] at h
          exact h.symm
        · intro i o h
          simp only [polledOps_wait, polledOps_poll, List.getElem?_cons_succ] at h
          cases i with
          | zero =>
            have h2 : (polledOps (pollLoop rest op2).1).head? = some o := by
              rw [List.head?_eq_getElem?]
              exact h
            have h3 := (ih op2).1 o h2
            simp [List.getElem?_cons_zero, h3]
          | succ j =>
            have h3 := (ih op2).2 j o h
            simp [List.getElem?_cons_succ, h3]

theorem getApiKey_cached (ek : Option String) (fe : KeyFetchEnv) (st : ServiceState)
    (k : String) (hk : st.apiKey = some k) (hne : k ≠ "") :
    getApiKey false ek fe st = (.ok k, st, 0) := by
  unfold getApiKey
  simp [hk, optTruthy, hne]

theorem getApiKey_studio_state (ek : Option String) (fe : KeyFetchEnv) (st : ServiceState) :
    (getApiKey true ek fe st).2.1 = st ∧ (getApiKey true ek fe st).2.2 = 0 := by
  unfold getApiKey
  by_cases h : optTruthy ek <;> simp [h]

theorem catchGen_cases (a : Bool) (e : String) (st : ServiceState) :
    catchGen a e st = st ∨
      (a = false ∧ e ≠ "" ∧ strContains e "permission" = true ∧
        catchGen a e st = { st with apiKey := none, isInitialized := false }) := by
  unfold catchGen
  by_cases h : (!a && !(e == "") && strContains e "permission") = true
  · rw [if_pos h]
    simp only [Bool.and_eq_true, Bool.not_eq_true', beq_eq_false_iff_ne] at h
    exact Or.inr ⟨h.1.1, h.1.2, h.2, rfl⟩
  · rw [if_neg h]
    exact Or.inl rfl

theorem generateRun_loopOk_events (a : Bool) (env : GenEnv) (st : ServiceState)
    (key : String) (st2 : ServiceState) (n : Nat) (op r : Operation)
    (hinit : st.isInitialized = true)
    (hkey : getApiKey a env.envKey env.fetchKey st = (.ok key, st2, n))
    (hcreate : env.createResult = .ok op)
    (hloop : (pollLoop env.pollResults op).2 = some (.ok r)) :
    (generateRun a env st).events =
      [Event.setMsg "Initializing animation sequence...",
       Event.startTimer 5000,
       Event.setMsg "The animation portal is open. Generating video..."] ++
      (pollLoop env.pollResults op).1 ++
      ([Event.stopTimer, Event.setMsg "Finalizing your video..."] ++
        (if optTruthy r.uri then [Event.download (r.uri.getD "") key] else [])) := by
  by_cases hu : optTruthy r.uri
  · by_cases hdl : env.downloadOk
    · simp [generateRun, hinit, hkey, hcreate, hloop, hu, hdl]
    · simp [generateRun, hinit, hkey, hcreate, hloop, hu, hdl]
  · simp [generateRun, hinit, hkey, hcreate, hloop, hu]

theorem generateRun_loopError (a : Bool) (env : GenEnv) (st : ServiceState)
    (key : String) (st2 : ServiceState) (n : Nat) (op : Operation) (e : String)
    (hinit : st.isInitialized = true)
    (hkey : getApiKey a env.envKey env.fetchKey st = (.ok key, st2, n))
    (hcreate : env.createResult = .ok op)
    (hloop : (pollLoop env.pollResults op).2 = some (.error e)) :
    generateRun a env st =
      ⟨[Event.setMsg "Initializing animation sequence...",
        Event.startTimer 5000,
        Event.setMsg "The animation portal is open. Generating video..."] ++
        (pollLoop env.pollResults op).1,
        some (.error e), catchGen a e st2, n⟩ := by
  simp [generateRun, hinit, hkey, hcreate, hloop]

theorem generateRun_ok_shape (a : Bool) (env : GenEnv) (st : ServiceState) (v : JsValue)
    (h : (generateRun a env st).result = some (.ok v)) :
    v = .vStr (createObjectURL env.downloadBody) := by
  by_cases hinit : st.isInitialized
  · rcases hg : getApiKey a env.envKey env.fetchKey st with ⟨res, st2, n⟩
    cases res with
    | error e => simp [generateRun, hinit, hg] at h
    | ok key =>
      cases hc : env.createResult with
      | error e => simp [generateRun, hinit, hg, hc] at h
      | ok op =>
        cases hp : (pollLoop env.pollResults op).2 with
        | none => simp [generateRun, hinit, hg, hc, hp] at h
        | some res2 =>
          cases res2 with
          | error e => simp [generateRun, hinit, hg, hc, hp] at h
          | ok opF =>
            by_cases hu : optTruthy opF.uri
            · by_cases hdl : env.downloadOk
              · simp [generateRun, hinit, hg, hc, hp, hu, hdl] at h
                exact h.symm
              · simp [generateRun, hinit, hg, hc, hp, hu, hdl] at h
            · simp [generateRun, hinit, hg, hc, hp, hu] at h
  · simp [generateRun, hinit] at h

theorem generateRun_state_cases (a : Bool) (env : GenEnv) (st : ServiceState) :
    (generateRun a env st).state = st ∨
    (generateRun a env st).state = (getApiKey a env.envKey env.fetchKey st).2.1 ∨
    ∃ e, (generateRun a env st).result = some (.error e) ∧
      (generateRun a env st).state =
        catchGen a e (getApiKey a env.envKey env.fetchKey st).2.1 := by
  by_cases hinit : st.isInitialized
  · rcases hg : getApiKey a env.envKey env.fetchKey st with ⟨res, st2, n⟩
    cases res with
    | error e =>
      right; left
      simp [generateRun, hinit, hg]
    | ok key =>
      cases hc : env.createResult with
      | error e =>
        right; right
        exact ⟨e, by simp [generateRun, hinit, hg, hc]⟩
      | ok op =>
        cases hp : (pollLoop env.pollResults op).2 with
        | none =>
          right; left
          simp [generateRun, hinit, hg, hc, hp]
        | some res2 =>
          cases res2 with
          | error e =>
            right; right
            exact ⟨e, by simp [generateRun, hinit, hg, hc, hp]⟩
          | ok opF =>
            by_cases hu : optTruthy opF.uri
            · by_cases hdl : env.downloadOk
              · right; left
                simp [generateRun, hinit, hg, hc, hp, hu, hdl]
              · right; right
                refine ⟨"Failed to download the generated video. Status: " ++
                  env.downloadStatusText ++ ". Details: " ++ env.downloadBody, ?_⟩
                simp [generateRun, hinit, hg, hc, hp, hu, hdl]
            · right; right
              refine ⟨"Video generation failed to produce a download link.", ?_⟩
              simp [generateRun, hinit, hg, hc, hp, hu]
  · left
    simp [generateRun, hinit]

/-- Claim C1: the poll loop terminates exactly when the done flag of the
operation becomes truthy.  (i) An operation already marked done is
returned at once, with no wait and no poll; (ii) whenever the loop
settles successfully, the returned operation has done true and every
operation submitted by a poll had done false; (iii) once a done response
is observed the full call issues no further poll and proceeds to the
download of the result blob: the trace is exactly the pre-loop messages,
the loop events, and then clearInterval, the finalizing message and the
download request. -/
theorem pollLoop_terminates_iff_done :
    (∀ (polls : List (Except String Operation)) (op : Operation),
      op.done = true → pollLoop polls op = ([], some (.ok op))) ∧
    (∀ (polls : List (Except String Operation)) (op : Operation)
        (evs : List Event) (r : Operation),
      pollLoop polls op = (evs, some (.ok r)) →
        r.done = true ∧ ∀ o ∈ polledOps evs, o.done = false) ∧
    (∀ (a : Bool) (env : GenEnv) (st st2 : ServiceState) (key : String) (n : Nat)
        (op r : Operation) (u : String),
      st.isInitialized = true →
      getApiKey a env.envKey env.fetchKey st = (.ok key, st2, n) →
      env.createResult = .ok op →
      (pollLoop env.pollResults op).2 = some (.ok r) →
      r.uri = some u → u ≠ "" →
      (generateRun a env st).events =
        [Event.setMsg "Initializing animation sequence...",
         Event.startTimer 5000,
         Event.setMsg "The animation portal is open. Generating video..."] ++
        (pollLoop env.pollResults op).1 ++
        [Event.stopTimer, Event.setMsg "Finalizing your video...",
         Event.download u key]) := by
  refine ⟨?_, ?_, ?_⟩
  · intro polls op h
    exact pollLoop_done_eq polls op h
  · intro polls op evs r h
    have h1 : (pollLoop polls op).1 = evs := by rw [h]
    have h2 : (pollLoop polls op).2 = some (.ok r) := by rw [h]
    refine ⟨pollLoop_result_done polls op r h2, ?_⟩
    intro o ho
    exact pollLoop_polled_not_done polls op o (by rw [h1]; exact ho)
  · intro a env st st2 key n op r u hinit hkey hcreate hloop huri hu
    have he := generateRun_loopOk_events a env st key st2 n op r hinit hkey hcreate hloop
    rw [he]
    have ht : optTruthy r.uri = true := by
      rw [huri]
      simp [optTruthy, hu]
    rw [ht]
    simp [huri]

theorem pollLoop_terminates_iff_done_witness :
    (generateRun false
      ⟨none, ⟨true, some "w"⟩, .ok ⟨"op0", false, none⟩,
        [.ok ⟨"op1", true, some "u"⟩], true, "", "bytes"⟩
      ⟨some "k", true⟩).events =
      [Event.setMsg "Initializing animation sequence...",
       Event.startTimer 5000,
       Event.setMsg "The animation portal is open. Generating video..."] ++
      (pollLoop [.ok ⟨"op1", true, some "u"⟩] ⟨"op0", false, none⟩).1 ++
      [Event.stopTimer, Event.setMsg "Finalizing your video...",
       Event.download "u" "k"] :=
  pollLoop_terminates_iff_done.2.2 false
    ⟨none, ⟨true, some "w"⟩, .ok ⟨"op0", false, none⟩,
      [.ok ⟨"op1", true, some "u"⟩], true, "", "bytes"⟩
    ⟨some "k", true⟩ ⟨some "k", true⟩ "k" 0 ⟨"op0", false, none⟩
    ⟨"op1", true, some "u"⟩ "u" rfl (by decide) rfl (by decide) rfl (by decide)

/-- Claim C5, counterexample: the second poll request does not carry the
handle the create call returned.  With create handle h0 and a first poll
response carrying handle h1 (not yet done), the submitted handles are
[h0, h1], and h1 differs from h0. -/
theorem poll_handle_not_original_cex :
    polledOps (pollLoop
      [.ok ⟨"h1", false, none⟩, .ok ⟨"h1", true, some "u"⟩]
      ⟨"h0", false, none⟩).1 =
      [⟨"h0", false, none⟩, ⟨"h1", false, none⟩] ∧
    (Operation.mk "h1" false none).name ≠ (Operation.mk "h0" false none).name := by
  decide

/-- Claim C5, amended: each poll re-submits, unchanged, the operation
most recently returned by the remote service: the first poll request
carries the create-call operation, and the (i+1)-th poll request carries
exactly the operation returned by the i-th poll response. -/
theorem poll_resubmits_latest_handle :
    ∀ (polls : List (Except String Operation)) (op : Operation)
      (evs : List Event) (res : Option (Except String Operation)),
      pollLoop polls op = (evs, res) →
      (∀ o, (polledOps evs).head? = some o → o = op) ∧
      (∀ i o, (polledOps evs)[i + 1]? = some o → polls[i]? = some (.ok o)) := by
  intro polls op evs res h
  have h1 : (pollLoop polls op).1 = evs := by rw [h]
  rw [← h1]
  exact pollLoop_chain polls op

theorem poll_resubmits_latest_handle_witness :
    (∀ o, (polledOps [Event.wait 10000, Event.pollReq ⟨"a", false, none⟩,
        Event.wait 10000, Event.pollReq ⟨"b", false, none⟩]).head? = some o →
      o = ⟨"a", false, none⟩) ∧
    (∀ i o, (polledOps [Event.wait 10000, Event.pollReq ⟨"a", false, none⟩,
        Event.wait 10000, Event.pollReq ⟨"b", false, none⟩])[i + 1]? = some o →
      [Except.ok ⟨"b", false, none⟩, Except.error "boom"][i]? = some (.ok o)) :=
  poll_resubmits_latest_handle [.ok ⟨"b", false, none⟩, .error "boom"]
    ⟨"a", false, none⟩
    [Event.wait 10000, Event.pollReq ⟨"a", false, none⟩,
      Event.wait 10000, Event.pollReq ⟨"b", false, none⟩]
    (some (.error "boom")) (by decide)

/-- Claim C7: the loop trace is exactly one wait of 10000 ms followed by
exactly one poll request, per iteration: no backoff, no extra wait, no
retry within an iteration. -/
theorem poll_fixed_delay_no_retry :
    ∀ (polls : List (Except String Operation)) (op : Operation)
      (evs : List Event) (res : Option (Except String Operation)),
      pollLoop polls op = (evs, res) →
      evs = (polledOps evs).flatMap (fun o => [Event.wait 10000, Event.pollReq o]) := by
  intro polls op evs res h
  have h1 : (pollLoop polls op).1 = evs := by rw [h]
  rw [← h1]
  exact pollLoop_events_shape polls op

theorem poll_fixed_delay_no_retry_witness :
    [Event.wait 10000, Event.pollReq ⟨"a", false, none⟩] =
      (polledOps [Event.wait 10000, Event.pollReq ⟨"a", false, none⟩]).flatMap
        (fun o => [Event.wait 10000, Event.pollReq o]) :=
  poll_fixed_delay_no_retry [.ok ⟨"b", true, none⟩] ⟨"a", false, none⟩
    [Event.wait 10000, Event.pollReq ⟨"a", false, none⟩]
    (some (.ok ⟨"b", true, none⟩)) (by decide)

/-- Claim C2, counterexample: with GEMINI_API_KEY set to the empty
string the environment variable is set, yet the handler answers 500 with
an error body, not 200 with the key. -/
theorem getKeyHandler_empty_key_cex :
    getKeyHandler (some "") =
      ⟨500, .errBody "GEMINI_API_KEY is not configured on the server."⟩ ∧
    (getKeyHandler (some "")).status ≠ 200 := by
  decide

/-- Claim C2, amended: when GEMINI_API_KEY is set to a nonempty string
the response is 200 with the key in an apiKey field; when it is unset or
set to the empty string the response is 500 with an error message. -/
theorem getKeyHandler_spec :
    (∀ k, k ≠ "" → getKeyHandler (some k) = ⟨200, .keyBody k⟩) ∧
    getKeyHandler none =
      ⟨500, .errBody "GEMINI_API_KEY is not configured on the server."⟩ ∧
    getKeyHandler (some "") =
      ⟨500, .errBody "GEMINI_API_KEY is not configured on the server."⟩ := by
  refine ⟨?_, by decide, by decide⟩
  intro k hk
  unfold getKeyHandler
  simp [optTruthy, hk]

theorem getKeyHandler_spec_witness :
    getKeyHandler (some "secret") = ⟨200, .keyBody "secret"⟩ :=
  getKeyHandler_spec.1 "secret" (by decide)

/-- Claim C3, counterexample: an error whose message is the empty string
contains no marker, yet the UI shows the fallback text, not the error
message itself. -/
theorem handleGenError_empty_message_cex :
    handleGenError "" = ("An unknown error occurred.", false) ∧
    ("An unknown error occurred." : String) ≠ "" := by
  decide

/-- Claim C3, amended: a nonempty message containing the
not-found marker yields the invalid-key text and the return to the
key-selection state; any message without the marker yields its own text
when nonempty and the fallback text when empty, without changing the app
state. -/
theorem handleGenError_branches :
    (∀ msg, msg ≠ "" → strContains msg "Requested entity was not found." = true →
      handleGenError msg =
        ("The selected API key appears to be invalid. Please select another key.", true)) ∧
    (∀ msg, strContains msg "Requested entity was not found." = false →
      handleGenError msg =
        (if msg = "" then "An unknown error occurred." else msg, false)) ∧
    handleGenError "" = ("An unknown error occurred.", false) := by
  refine ⟨?_, ?_, by decide⟩
  · intro msg h1 h2
    unfold handleGenError
    simp [h1, h2]
  · intro msg h2
    unfold handleGenError
    simp [h2]

theorem handleGenError_branches_witness :
    handleGenError "Requested entity was not found." =
      ("The selected API key appears to be invalid. Please select another key.", true) ∧
    handleGenError "quota exceeded" =
      (if ("quota exceeded" : String) = "" then "An unknown error occurred."
        else "quota exceeded", false) :=
  ⟨handleGenError_branches.1 "Requested entity was not found." (by decide) (by decide),
   handleGenError_branches.2.1 "quota exceeded" (by decide)⟩

/-- Claim C6: initializeApp resolves false, without throwing, both when
AI Studio reports no selected key and when getApiKey throws
DEV_KEY_MISSING; every other getApiKey failure is rethrown unchanged. -/
theorem initializeApp_error_discrimination :
    (∀ (ek : Option String) (fe : KeyFetchEnv) (st : ServiceState),
      (initializeApp true false ek fe st).1 = .ok false) ∧
    (∀ (ek : Option String) (fe : KeyFetchEnv) (st : ServiceState),
      optTruthy ek = false → (initializeApp true true ek fe st).1 = .ok false) ∧
    (∀ (a hs : Bool) (ek : Option String) (fe : KeyFetchEnv) (st : ServiceState)
        (e : String),
      (a = true → hs = true) →
      (getApiKey a ek fe st).1 = .error e → e ≠ "DEV_KEY_MISSING" →
      (initializeApp a hs ek fe st).1 = .error e) := by
  refine ⟨?_, ?_, ?_⟩
  · intro ek fe st
    simp [initializeApp]
  · intro ek fe st h
    simp [initializeApp, getApiKey, h]
  · intro a hs ek fe st e himp hg hne
    have hguard : (a && !hs) = false := by
      cases a
      · simp
      · simp [himp rfl]
    rcases hgg : getApiKey a ek fe st with ⟨res, st2, n⟩
    rw [hgg] at hg
    simp only at hg
    subst hg
    simp [initializeApp, hguard, hgg, hne]

theorem initializeApp_error_discrimination_witness :
    (initializeApp true true none ⟨true, some "k"⟩ ⟨none, false⟩).1 = .ok false ∧
    (initializeApp false false none ⟨false, none⟩ ⟨none, false⟩).1 =
      .error "Could not connect to the server to get the API key. Please check the server logs." :=
  ⟨initializeApp_error_discrimination.2.1 none ⟨true, some "k"⟩ ⟨none, false⟩ rfl,
   initializeApp_error_discrimination.2.2 false false none ⟨false, none⟩ ⟨none, false⟩
     "Could not connect to the server to get the API key. Please check the server logs."
     (by decide) (by decide) (by decide)⟩

/-- Claim C8, counterexample: one session with three module calls issues
two network fetches of the key: initializeApp fetches and caches the
key, a production permission error inside generateVideoFromImage clears
the cache, and the next getApiKey call fetches again. -/
theorem getApiKey_two_fetches_cex :
    (sessionRun false ⟨none, false⟩
      [.opInit true none ⟨true, some "k"⟩,
       .opGenerate ⟨none, ⟨true, some "k"⟩, .error "permission denied: veo", [], true, "", ""⟩,
       .opGetKey none ⟨true, some "k2"⟩]).2 = 2 ∧
    ¬((sessionRun false ⟨none, false⟩
      [.opInit true none ⟨true, some "k"⟩,
       .opGenerate ⟨none, ⟨true, some "k"⟩, .error "permission denied: veo", [], true, "", ""⟩,
       .opGetKey none ⟨true, some "k2"⟩]).2 ≤ 1) := by
  decide

/-- Claim C8, amended: while the production cache holds a key, every
getApiKey call returns that key with zero network fetches and an
unchanged state (so repeated calls are idempotent); a new fetch can only
happen after the cache was cleared.  In AI Studio the result ignores the
fetch environment and the cache, reads the current process.env.API_KEY,
issues no fetch and leaves the state unchanged. -/
theorem getApiKey_cached_idempotent :
    (∀ (ek : Option String) (fe : KeyFetchEnv) (st : ServiceState) (k : String),
      st.apiKey = some k → k ≠ "" → getApiKey false ek fe st = (.ok k, st, 0)) ∧
    (∀ (st : ServiceState) (k : String) (ek : Option String) (fe : KeyFetchEnv)
        (ek2 : Option String) (fe2 : KeyFetchEnv),
      st.apiKey = some k → k ≠ "" →
      sessionRun false st [.opGetKey ek fe, .opGetKey ek2 fe2] = (st, 0)) ∧
    (∀ (ek : Option String) (fe fe2 : KeyFetchEnv) (st st2 : ServiceState),
      (getApiKey true ek fe st).1 = (getApiKey true ek fe2 st2).1 ∧
      (getApiKey true ek fe st).2.1 = st ∧
      (getApiKey true ek fe st).2.2 = 0 ∧
      (optTruthy ek = true → (getApiKey true ek fe st).1 = .ok (ek.getD ""))) := by
  refine ⟨?_, ?_, ?_⟩
  · intro ek fe st k hk hne
    exact getApiKey_cached ek fe st k hk hne
  · intro st k ek fe ek2 fe2 hk hne
    simp [sessionRun, sessionStep, getApiKey_cached ek fe st k hk hne,
      getApiKey_cached ek2 fe2 st k hk hne]
  · intro ek fe fe2 st st2
    unfold getApiKey
    by_cases h : optTruthy ek <;> simp [h]

theorem getApiKey_cached_idempotent_witness :
    getApiKey false none ⟨false, none⟩ ⟨some "k", true⟩ =
      (.ok "k", ⟨some "k", true⟩, 0) ∧
    sessionRun false ⟨some "k", true⟩
      [.opGetKey none ⟨false, none⟩, .opGetKey none ⟨true, some "z"⟩] =
      (⟨some "k", true⟩, 0) :=
  ⟨getApiKey_cached_idempotent.1 none ⟨false, none⟩ ⟨some "k", true⟩ "k" rfl (by decide),
   getApiKey_cached_idempotent.2.1 ⟨some "k", true⟩ "k" none ⟨false, none⟩ none
     ⟨true, some "z"⟩ rfl (by decide)⟩

/-- Claim C4, counterexample: after the first successful retrieval
caches the key, a production generateVideoFromImage call whose error
message contains "permission" clears the cached credential. -/
theorem credential_cache_cleared_cex :
    (sessionStep false ⟨none, false⟩ (.opInit true none ⟨true, some "k"⟩)).1 =
      ⟨some "k", true⟩ ∧
    (sessionRun false ⟨none, false⟩
      [.opInit true none ⟨true, some "k"⟩,
       .opGenerate ⟨none, ⟨true, some "k"⟩, .error "permission denied: veo", [], true, "", ""⟩]).1.apiKey
      = none := by
  decide

/-- Claim C4, amended: a cached credential is never replaced by a
different value, and the only module operation that can clear it is
generateVideoFromImage, when in production it rejects with an error
whose message contains "permission"; every other operation leaves the
cached credential intact. -/
theorem credential_cache_stability :
    ∀ (a : Bool) (st : ServiceState) (op : SessionOp) (k : String),
      st.apiKey = some k → k ≠ "" →
      (sessionStep a st op).1.apiKey = some k ∨
      (a = false ∧ ∃ env e, op = .opGenerate env ∧
        (generateRun a env st).result = some (.error e) ∧
        strContains e "permission" = true ∧
        (sessionStep a st op).1.apiKey = none) := by
  intro a st op k hk hne
  cases op with
  | opGetKey ek fe =>
    left
    cases a with
    | false => simp [sessionStep, getApiKey_cached ek fe st k hk hne, hk]
    | true => simp [sessionStep, (getApiKey_studio_state ek fe st).1, hk]
  | opInit hs ek fe =>
    left
    by_cases hguard : (a && !hs) = true
    · simp [sessionStep, initializeApp, hguard, hk]
    · have hguard2 : (a && !hs) = false := by
        simp only [Bool.not_eq_true] at hguard
        exact hguard
      cases a with
      | false =>
        simp [sessionStep, initializeApp, hguard2,
          getApiKey_cached ek fe st k hk hne, hk]
      | true =>
        rcases hgg : getApiKey true ek fe st with ⟨res, st2, n⟩
        have hst2 : st2 = st := by
          have h1 := (getApiKey_studio_state ek fe st).1
          rw [hgg] at h1
          exact h1
        subst hst2
        cases res with
        | ok key => simp [sessionStep, initializeApp, hguard2, hgg, hk]
        | error e =>
          by_cases he : (e == "DEV_KEY_MISSING") = true
          · simp [sessionStep, initializeApp, hguard2, hgg, he, hk]
          · have he2 : (e == "DEV_KEY_MISSING") = false := by
              simp only [Bool.not_eq_true] at he
              exact he
            simp [sessionStep, initializeApp, hguard2, hgg, he2, hk]
  | opGenerate env =>
    have hkeystate : (getApiKey a env.envKey env.fetchKey st).2.1 = st := by
      cases a with
      | false => rw [getApiKey_cached env.envKey env.fetchKey st k hk hne]
      | true => exact (getApiKey_studio_state env.envKey env.fetchKey st).1
    rcases generateRun_state_cases a env st with h1 | h2 | ⟨e, hres, hstate⟩
    · left
      simp [sessionStep, h1, hk]
    · left
      rw [hkeystate] at h2
      simp [sessionStep, h2, hk]
    · rw [hkeystate] at hstate
      rcases catchGen_cases a e st with hc | ⟨ha, hene, hperm, hc⟩
      · left
        rw [hc] at hstate
        simp [sessionStep, hstate, hk]
      · right
        refine ⟨ha, env, e, rfl, hres, hperm, ?_⟩
        rw [hc] at hstate
        simp [sessionStep, hstate]

theorem credential_cache_stability_witness :
    (sessionStep false ⟨some "k", true⟩ (.opGetKey none ⟨true, some "x"⟩)).1.apiKey =
      some "k" ∨
    (false = false ∧ ∃ env e,
      SessionOp.opGetKey none ⟨true, some "x"⟩ = .opGenerate env ∧
      (generateRun false env ⟨some "k", true⟩).result = some (.error e) ∧
      strContains e "permission" = true ∧
      (sessionStep false ⟨some "k", true⟩ (.opGetKey none ⟨true, some "x"⟩)).1.apiKey =
        none) :=
  credential_cache_stability false ⟨some "k", true⟩ (.opGetKey none ⟨true, some "x"⟩)
    "k" rfl (by decide)

/-- Claim C9: every successful generateVideoFromImage call resolves to a
plain string (the object URL of the downloaded blob); reading url or
blob on it yields undefined (both falsy), and the value is never a
GenerateVideoResult record, so no successful generation produces the
record pair the UI consumes. -/
theorem generate_result_is_string :
    ∀ (a : Bool) (env : GenEnv) (st : ServiceState) (v : JsValue),
      (generateRun a env st).result = some (.ok v) →
      ∃ s, v = .vStr s ∧
        getField v "url" = .vUndefined ∧ getField v "blob" = .vUndefined ∧
        jsTruthy (getField v "url") = false ∧ jsTruthy (getField v "blob") = false ∧
        ∀ r : GenerateVideoResult, v ≠ recordValue r := by
  intro a env st v h
  have hv := generateRun_ok_shape a env st v h
  subst hv
  exact ⟨createObjectURL env.downloadBody, rfl, rfl, rfl, rfl, rfl,
    fun r => by simp [recordValue]⟩

theorem generate_result_is_string_witness :
    ∃ s, JsValue.vStr (createObjectURL "bytes") = .vStr s ∧
      getField (JsValue.vStr (createObjectURL "bytes")) "url" = .vUndefined ∧
      getField (JsValue.vStr (createObjectURL "bytes")) "blob" = .vUndefined ∧
      jsTruthy (getField (JsValue.vStr (createObjectURL "bytes")) "url") = false ∧
      jsTruthy (getField (JsValue.vStr (createObjectURL "bytes")) "blob") = false ∧
      ∀ r : GenerateVideoResult, JsValue.vStr (createObjectURL "bytes") ≠ recordValue r :=
  generate_result_is_string false
    ⟨none, ⟨true, some "w"⟩, .ok ⟨"op0", true, some "u"⟩, [], true, "200", "bytes"⟩
    ⟨some "k", true⟩ (.vStr (createObjectURL "bytes")) (by decide)

/-- Claim C10, counterexample: a run whose download fetch fails rejects
with the download error, yet its trace does contain the clearInterval
event: the timer was already cleared before the download started, so
this error path does not leave the timer active. -/
theorem timer_cleared_on_download_error_cex :
    (generateRun false
      ⟨none, ⟨true, some "k"⟩, .ok ⟨"op0", false, none⟩,
        [.ok ⟨"op1", true, some "u"⟩], false, "403", "denied"⟩
      ⟨some "k", true⟩).result =
      some (.error "Failed to download the generated video. Status: 403. Details: denied") ∧
    Event.stopTimer ∈ (generateRun false
      ⟨none, ⟨true, some "k"⟩, .ok ⟨"op0", false, none⟩,
        [.ok ⟨"op1", true, some "u"⟩], false, "403", "denied"⟩
      ⟨some "k", true⟩).events := by
  decide

/-- Claim C10, amended: clearInterval runs exactly when the poll loop
exits normally.  An error thrown by a poll request rejects the call with
the timer still active (no clearInterval in the trace), while once the
loop settles successfully the trace contains clearInterval, so later
errors (missing link, failed download) occur after the timer was
cleared. -/
theorem timer_leak_poll_errors_only :
    (∀ (a : Bool) (env : GenEnv) (st st2 : ServiceState) (key : String) (n : Nat)
        (op : Operation) (e : String),
      st.isInitialized = true →
      getApiKey a env.envKey env.fetchKey st = (.ok key, st2, n) →
      env.createResult = .ok op →
      (pollLoop env.pollResults op).2 = some (.error e) →
      (generateRun a env st).result = some (.error e) ∧
      Event.startTimer 5000 ∈ (generateRun a env st).events ∧
      Event.stopTimer ∉ (generateRun a env st).events) ∧
    (∀ (a : Bool) (env : GenEnv) (st st2 : ServiceState) (key : String) (n : Nat)
        (op r : Operation),
      st.isInitialized = true →
      getApiKey a env.envKey env.fetchKey st = (.ok key, st2, n) →
      env.createResult = .ok op →
      (pollLoop env.pollResults op).2 = some (.ok r) →
      Event.stopTimer ∈ (generateRun a env st).events) := by
  constructor
  · intro a env st st2 key n op e hinit hkey hcreate hloop
    have hrun := generateRun_loopError a env st key st2 n op e hinit hkey hcreate hloop
    rw [hrun]
    refine ⟨rfl, by simp, ?_⟩
    intro hmem
    simp only [List.mem_append] at hmem
    rcases hmem with hpre | hloopmem
    · simp at hpre
    · exact pollLoop_no_stop env.pollResults op hloopmem
  · intro a env st st2 key n op r hinit hkey hcreate hloop
    have he := generateRun_loopOk_events a env st key st2 n op r hinit hkey hcreate hloop
    rw [he]
    simp

theorem timer_leak_poll_errors_only_witness :
    (generateRun false
      ⟨none, ⟨true, some "w"⟩, .ok ⟨"op0", false, none⟩, [.error "boom"], true, "", ""⟩
      ⟨some "k", true⟩).result = some (.error "boom") ∧
    Event.startTimer 5000 ∈ (generateRun false
      ⟨none, ⟨true, some "w"⟩, .ok ⟨"op0", false, none⟩, [.error "boom"], true, "", ""⟩
      ⟨some "k", true⟩).events ∧
    Event.stopTimer ∉ (generateRun false
      ⟨none, ⟨true, some "w"⟩, .ok ⟨"op0", false, none⟩, [.error "boom"], true, "", ""⟩
      ⟨some "k", true⟩).events :=
  timer_leak_poll_errors_only.1 false
    ⟨none, ⟨true, some "w"⟩, .ok ⟨"op0", false, none⟩, [.error "boom"], true, "", ""⟩
    ⟨some "k", true⟩ ⟨some "k", true⟩ "k" 0 ⟨"op0", false, none⟩ "boom"
    rfl (by decide) rfl (by decide)
